import Mathlib

/-!
Shallow embedding of the rock-paper-scissors Telegram bot (src/main.py).

The four spreadsheet tables (users, mode_votes, games, moves) are modelled
as lists of records; every value stored in a sheet cell is a `String` except
the numeric `move_no`/`moves_count` columns, which the program always writes
as integers. The `logs` sheet is write-only diagnostics and is not part of
any claim, so it is not modelled. External inputs that the program reads
from the clock (`today_iso()`, `time.time()`, `datetime.now()`) are passed
as explicit parameters. A Python exception that would escape a function
(e.g. the `KeyError` raised by `beats[a]` in `determine_winner`) is
modelled as `none` in an `Option` result.
-/

namespace RpsBot

/-- Row of the `users` sheet: columns user_id, name, reg_date, chat_id. -/
structure UserRec where
  user_id : String
  name : String
  reg_date : String
  chat_id : String
deriving Repr, DecidableEq

/-- Row of the `mode_votes` sheet: columns date, user_id, mode. -/
structure VoteRec where
  date : String
  user_id : String
  mode : String
deriving Repr, DecidableEq

/-- Row of the `games` sheet: columns game_id, date, mode, winner,
moves_count, finished. `finished` is stored as the strings "TRUE"/"FALSE"
and the program compares `str(...).upper() == "TRUE"`. -/
structure GameRec where
  game_id : String
  date : String
  mode : String
  winner : String
  moves_count : Nat
  finished : String
deriving Repr, DecidableEq

/-- Row of the `moves` sheet. A pending auto-mode choice has `move_no = 0`,
`winner_for_move = "auto_choice"` and only the player1 columns populated;
a settled round has `move_no ≥ 1` and `winner_for_move` in
{player1, player2, tie}. -/
structure MoveRec where
  game_id : String
  move_no : Nat
  player1_id : String
  player1_move : String
  player2_id : String
  player2_move : String
  winner_for_move : String
  timestamp : String
deriving Repr, DecidableEq

/-- The persistent store: the four game-relevant sheets. -/
structure St where
  users : List UserRec
  mode_votes : List VoteRec
  games : List GameRec
  moves : List MoveRec
deriving Repr, DecidableEq

/-- Python `str(None)` versus `str(x)` for an optional cell value. -/
def optStr : Option String → String
  | none => "None"
  | some s => s

/-- Python truthiness of an optional string cell (`None` and `""` are falsy). -/
def truthyId : Option String → Bool
  | none => false
  | some s => s != ""

/-- The `beats` dictionary of `determine_winner` (main.py line 231);
`none` models a `KeyError` on lookup. -/
def beats (a : String) : Option String :=
  if a == "rock" then some "scissors"
  else if a == "scissors" then some "paper"
  else if a == "paper" then some "rock"
  else none

/-- main.py `determine_winner` (lines 229-234). Returns `none` when the
Python code would raise `KeyError` (first symbol not a key of `beats`,
reached only when the two symbols differ). -/
def determine_winner (a b : String) : Option String :=
  if a == b then some "tie"
  else
    match beats a with
    | none => none
    | some x => some (if x == b then "player1" else "player2")

/-- The fixed set of valid move symbols. -/
def validMoves : List String := ["rock", "paper", "scissors"]

/-- Python `str.upper()` on the stored cell value (ASCII suffices for the
values "TRUE"/"FALSE" the program writes). -/
def pyUpper (s : String) : String :=
  ⟨s.data.map Char.toUpper⟩

/-- Python `str(g.get("finished")).upper() == "TRUE"`. -/
def finishedIsTrue (s : String) : Bool :=
  pyUpper s == "TRUE"

/-- Scan of the games sheet from sheet row `i` (records start at row 2);
returns the first row whose date column equals `d`, with its sheet row
index, as in main.py `get_today_game` (lines 169-176). -/
def findGameAux (i : Nat) (l : List GameRec) (d : String) : Option (Nat × GameRec) :=
  match l with
  | [] => none
  | g :: rest => if g.date == d then some (i, g) else findGameAux (i + 1) rest d

/-- main.py `get_today_game` with the current date passed explicitly. -/
def get_today_game (s : St) (today : String) : Option (Nat × GameRec) :=
  findGameAux 2 s.games today

/-- Overwrite the games-sheet row with sheet index `gi` (rows count from 2)
by `f`, as `games_sheet.update_cell` / `games_sheet.update` do. -/
def updateRowAux (i gi : Nat) (f : GameRec → GameRec) : List GameRec → List GameRec
  | [] => []
  | g :: rest => (if i == gi then f g else g) :: updateRowAux (i + 1) gi f rest

/-- Row update at sheet index `gi` of the games table. -/
def updateRow (games : List GameRec) (gi : Nat) (f : GameRec → GameRec) : List GameRec :=
  updateRowAux 2 gi f games

/-- The vote upsert of main.py `record_mode_vote` lines 199-206: the first
row for this date and voter has its mode cell overwritten, otherwise a new
row is appended. -/
def upsertVote (l : List VoteRec) (d u m : String) : List VoteRec :=
  match l with
  | [] => [⟨d, u, m⟩]
  | r :: rest =>
    if r.date == d && r.user_id == u then { r with mode := m } :: rest
    else r :: upsertVote rest d u m

/-- One step of the vote-grouping dict of main.py lines 217-222:
`votes.setdefault(m, set()).add(user_id)`. Modes keep first-insertion
order; each mode's voter list is duplicate-free. -/
def addVote (acc : List (String × List String)) (m u : String) : List (String × List String) :=
  match acc with
  | [] => [(m, [u])]
  | q :: rest =>
    if q.1 == m then (q.1, if q.2.contains u then q.2 else q.2 ++ [u]) :: rest
    else q :: addVote rest m u

/-- The grouping loop of main.py lines 217-222 over the whole votes sheet. -/
def groupVotes (rs : List VoteRec) (d : String) : List (String × List String) :=
  rs.foldl (fun acc r => if r.date == d then addVote acc r.mode r.user_id else acc) []

/-- The scan of main.py lines 223-224: the first mode (in dict order) with
at least two distinct voters. -/
def findAgreedMode : List (String × List String) → Option String
  | [] => none
  | q :: rest => if q.2.length ≥ 2 then some q.1 else findAgreedMode rest

/-- The game row appended by main.py `create_new_game` (lines 178-185),
where `tsec` stands for `int(time.time())`. -/
def newGameRec (today mode tsec : String) : GameRec :=
  ⟨today ++ "_" ++ tsec, today, mode, "", 0, "FALSE"⟩

/-- main.py `record_mode_vote` (lines 187-227). Returns the status pair the
Python function returns together with the updated store. `today` is
`today_iso()` and `tsec` is the clock value used for the new game id. -/
def record_mode_vote (s : St) (today tg mode tsec : String) :
    (String × Option String) × St :=
  let s1 : St := { s with mode_votes := upsertVote s.mode_votes today tg mode }
  match get_today_game s1 today with
  | some (_, g) => (("already", some g.game_id), s1)
  | none =>
    match findAgreedMode (groupVotes s1.mode_votes today) with
    | some m =>
      let g := newGameRec today m tsec
      (("started", some g.game_id), { s1 with games := s1.games ++ [g] })
    | none => (("waiting", none), s1)

/-- The row predicate of the deletion loop in main.py `save_auto_choice`
(lines 242-248): a pending auto choice of player `tg` in game `gid`. -/
def isAutoChoiceFor (gid tg : String) (r : MoveRec) : Bool :=
  r.game_id == gid && r.winner_for_move == "auto_choice" && r.player1_id == tg

/-- main.py `save_auto_choice` (lines 236-263): delete every pending-choice
row of this player for this game (collecting indices and deleting them in
reverse equals filtering them out), then append a fresh one. `ts` is
`datetime.now().isoformat()`. -/
def save_auto_choice (s : St) (gid tg mv ts : String) : St :=
  { s with moves :=
      s.moves.filter (fun r => !(isAutoChoiceFor gid tg r)) ++
        [⟨gid, 0, tg, mv, "", "", "auto_choice", ts⟩] }

/-- Dict insertion `choices[player1_id] = r` of main.py line 327: a present
key keeps its position and gets the new value, a new key is appended. -/
def upsertAssoc (acc : List (String × MoveRec)) (k : String) (v : MoveRec) :
    List (String × MoveRec) :=
  match acc with
  | [] => [(k, v)]
  | (k0, v0) :: rest =>
    if k0 == k then (k0, v) :: rest else (k0, v0) :: upsertAssoc rest k v

/-- The pending-choice collection loop of main.py lines 324-327. -/
def collectChoices (rows : List MoveRec) (gid : String) : List (String × MoveRec) :=
  rows.foldl
    (fun acc r =>
      if r.game_id == gid && r.winner_for_move == "auto_choice"
      then upsertAssoc acc r.player1_id r
      else acc)
    []

/-- Row predicate of the settled-round count in main.py lines 341-349. -/
def isSettled (r : MoveRec) : Bool :=
  r.winner_for_move == "player1" || r.winner_for_move == "player2" ||
    r.winner_for_move == "tie"

/-- Count of already-settled rounds of a game (main.py lines 341-349 and
406-414); the next round number is this plus one. -/
def settledCount (rows : List MoveRec) (gid : String) : Nat :=
  (rows.filter (fun r => r.game_id == gid && isSettled r)).length

/-- main.py `get_player_ids` (lines 265-274): scan the users sheet; the
last row named "Руся" / "Никита" wins (the loop has no break). -/
def get_player_ids (users : List UserRec) : Option String × Option String :=
  users.foldl
    (fun p r =>
      if r.name == "Руся" then (some r.user_id, p.2)
      else if r.name == "Никита" then (p.1, some r.user_id)
      else p)
    (none, none)

/-- The winner-name resolution of main.py lines 370-375: compare the first
choice's player id against `str(rusya_id)` and pick a display name. -/
def resolve_winner_name (users : List UserRec) (p1id w : String) : String :=
  if p1id == optStr (get_player_ids users).1 then
    if w == "player1" then "Руся" else "Никита"
  else
    if w == "player1" then "Никита" else "Руся"

/-- Result record of the settlement engine, mirroring the JSON dict that
main.py `process_daily_auto_game` returns. -/
structure DailyResult where
  status : String
  winner : Option String
  move_no : Option Nat
deriving Repr, DecidableEq

/-- main.py `process_daily_auto_game` (lines 310-386), the daily settlement
engine, with the clock passed in (`today`, `ts`). The outbound Telegram
notification is fire-and-forget and does not touch the store, so it is not
modelled. `none` models an uncaught exception (the `KeyError` that
`determine_winner` raises on an invalid stored move). -/
def process_daily_auto_game (s : St) (today ts : String) : Option (DailyResult × St) :=
  match get_today_game s today with
  | none => some (⟨"no_game_today", none, none⟩, s)
  | some (gi, g) =>
    if g.mode != "auto" then some (⟨"mode_not_auto", none, none⟩, s)
    else if finishedIsTrue g.finished then some (⟨"already_finished", none, none⟩, s)
    else
      match collectChoices s.moves g.game_id with
      | (_, c1) :: (_, c2) :: _ =>
        let m1 := c1.player1_move
        let m2 := c2.player1_move
        match determine_winner m1 m2 with
        | none => none
        | some w =>
          let move_no := settledCount s.moves g.game_id + 1
          let p2id := if c2.player2_id == "" then c2.player1_id else c2.player2_id
          let s1 : St := { s with moves :=
            s.moves ++ [⟨g.game_id, move_no, c1.player1_id, m1, p2id, m2, w, ts⟩] }
          if w == "tie" then
            let games2 := updateRow s1.games gi
              (fun gr => { gr with moves_count := move_no, winner := "draw_pending" })
            some (⟨"tie", none, some move_no⟩, { s1 with games := games2 })
          else
            let wname := resolve_winner_name s.users c1.player1_id w
            let games2 := updateRow s1.games gi
              (fun _ => ⟨g.game_id, today, "auto", wname, move_no, "TRUE"⟩)
            some (⟨"finished", some wname, some move_no⟩, { s1 with games := games2 })
      | _ => some (⟨"not_enough_players", none, none⟩, s)

/-- The store effect of the `auto_<move>` callback branch of main.py
`on_callback` (lines 663-681): reject when no game exists for today or its
mode is not "auto", otherwise save the choice. The finished flag is not
consulted on this path. -/
def auto_move_callback (s : St) (today tg mv ts : String) : St :=
  match get_today_game s today with
  | none => s
  | some (_, g) =>
    if g.mode != "auto" then s
    else save_auto_choice s g.game_id tg mv ts

/-- The in-memory `manual_state` dict of main.py lines 390-395. A cleared
move slot (Python `None`) is modelled as `""`, which behaves identically in
every use the program makes of it (falsiness, equality, `beats` lookup
failure). -/
structure MState where
  game_id : String
  move_no : Nat
  p1_move : String
  p2_move : String
deriving Repr, DecidableEq

/-- Result pair of main.py `manual_process_if_both_moves`. -/
structure ManualResult where
  ok : Bool
  msg : String
deriving Repr, DecidableEq

/-- main.py `manual_process_if_both_moves` (lines 421-467): resolve the two
player ids, compute the round outcome, append the settled Move row, and
only then look the day's Game up; update the Game row on success. `none`
models the `KeyError` of `determine_winner` on an invalid move. -/
def manual_process_if_both_moves (s : St) (ms : MState) (today ts : String) :
    Option (ManualResult × St × MState) :=
  let ids := get_player_ids s.users
  if !(truthyId ids.1) || !(truthyId ids.2) then
    some (⟨false, "Не найдены оба игрока."⟩, s, ms)
  else
    match determine_winner ms.p1_move ms.p2_move with
    | none => none
    | some w =>
      let s1 : St := { s with moves :=
        s.moves ++
          [⟨ms.game_id, ms.move_no, optStr ids.1, ms.p1_move,
            optStr ids.2, ms.p2_move, w, ts⟩] }
      match get_today_game s1 today with
      | none => some (⟨false, "Игра не найдена."⟩, s1, ms)
      | some (gi, _) =>
        if w == "tie" then
          let games2 := updateRow s1.games gi
            (fun gr => { gr with moves_count := ms.move_no, winner := "draw_pending" })
          some (⟨true, "tie"⟩, { s1 with games := games2 },
            { ms with move_no := ms.move_no + 1, p1_move := "", p2_move := "" })
        else
          let wname := if w == "player1" then "Руся" else "Никита"
          let games2 := updateRow s1.games gi
            (fun _ => ⟨ms.game_id, today, "manual", wname, ms.move_no, "TRUE"⟩)
          some (⟨true, wname⟩, { s1 with games := games2 }, ms)

/-- A sequence of `record_mode_vote` calls on one date; each list entry is
a caller id, the mode voted for, and the clock value for that call. -/
def runVoteSeq (s : St) (today : String) : List (String × String × String) → St
  | [] => s
  | c :: rest => runVoteSeq (record_mode_vote s today c.1 c.2.1 c.2.2).2 today rest

/-- Number of rows of the games table carrying a given date. -/
def gameCount (s : St) (today : String) : Nat :=
  (s.games.filter (fun g => g.date == today)).length

/-- The two registered players used by concrete test states. -/
def twoUsers : List UserRec :=
  [⟨"1", "Руся", "2024-01-01", "100"⟩, ⟨"2", "Никита", "2024-01-01", "200"⟩]

/-- Unfinished auto game for 2024-01-01 with both pending choices in
(rock for Руся, scissors for Никита). -/
def stAutoReady : St :=
  { users := twoUsers
    mode_votes := []
    games := [⟨"g1", "2024-01-01", "auto", "", 0, "FALSE"⟩]
    moves :=
      [⟨"g1", 0, "1", "rock", "", "", "auto_choice", "t1"⟩,
       ⟨"g1", 0, "2", "scissors", "", "", "auto_choice", "t2"⟩] }

/-- Same day, both players chose rock: a tie. -/
def stAutoTie : St :=
  { users := twoUsers
    mode_votes := []
    games := [⟨"g1", "2024-01-01", "auto", "", 0, "FALSE"⟩]
    moves :=
      [⟨"g1", 0, "1", "rock", "", "", "auto_choice", "t1"⟩,
       ⟨"g1", 0, "2", "rock", "", "", "auto_choice", "t2"⟩] }

/-- Finished manual game for 2024-01-01. -/
def stManualDone : St :=
  { users := twoUsers
    mode_votes := []
    games := [⟨"g2", "2024-01-01", "manual", "Руся", 1, "TRUE"⟩]
    moves := [] }

/-- Finished auto game for 2024-01-01, no pending choices. -/
def stAutoDone : St :=
  { users := twoUsers
    mode_votes := []
    games := [⟨"g1", "2024-01-01", "auto", "Руся", 1, "TRUE"⟩]
    moves := [] }

/-- No game yet; the only vote so far is player 1's manual vote. -/
def stOneVote : St :=
  { users := twoUsers
    mode_votes := [⟨"2024-01-01", "1", "manual"⟩]
    games := []
    moves := [] }

/-! General lemmas about the embedded operations. -/

/-- Changing only the moves table does not affect the games-sheet scan. -/
theorem get_today_game_set_moves (s : St) (mv : List MoveRec) (today : String) :
    get_today_game { s with moves := mv } today = get_today_game s today := rfl

/-- Changing only the mode_votes table does not affect the games-sheet scan. -/
theorem get_today_game_set_votes (s : St) (v : List VoteRec) (today : String) :
    get_today_game { s with mode_votes := v } today = get_today_game s today := rfl

/-- A failed games-sheet scan means no row carries the date. -/
theorem findGameAux_none_filter (l : List GameRec) (d : String) :
    ∀ i, findGameAux i l d = none → l.filter (fun g => g.date == d) = [] := by
  induction l with
  | nil => intro i _; rfl
  | cons g rest ih =>
    intro i h
    rw [findGameAux] at h
    by_cases hd : (g.date == d) = true
    · rw [if_pos hd] at h; exact absurd h (by simp)
    · rw [if_neg hd] at h
      have hd' : (g.date == d) = false := by
        exact Bool.not_eq_true _ |>.mp hd
      simp only [List.filter_cons, hd', Bool.false_eq_true, if_false]
      exact ih (i + 1) h

/-- The pending-choice rows of `(gid, tg)` after `save_auto_choice` are
exactly the freshly appended row. -/
theorem filter_save_auto_choice (s : St) (gid tg mv ts : String) :
    (save_auto_choice s gid tg mv ts).moves.filter (isAutoChoiceFor gid tg) =
      [⟨gid, 0, tg, mv, "", "", "auto_choice", ts⟩] := by
  unfold save_auto_choice
  simp only [List.filter_append, List.filter_filter]
  rw [show (List.filter (fun r => isAutoChoiceFor gid tg r && !(isAutoChoiceFor gid tg r))
        s.moves) = List.filter (fun _ => false) s.moves from by
      simp]
  simp [isAutoChoiceFor]

/-- One `record_mode_vote` call keeps the number of games for the date at
most one: an existing game short-circuits into the `already` branch and at
most one row is appended otherwise. -/
theorem record_vote_gameCount (s : St) (today tg mode tsec : String)
    (h : gameCount s today ≤ 1) :
    gameCount (record_mode_vote s today tg mode tsec).2 today ≤ 1 := by
  cases hgt : get_today_game { s with mode_votes := upsertVote s.mode_votes today tg mode } today with
  | some p =>
    have : (record_mode_vote s today tg mode tsec).2 =
        { s with mode_votes := upsertVote s.mode_votes today tg mode } := by
      simp [record_mode_vote, hgt]
    rw [this]
    simpa [gameCount] using h
  | none =>
    have hnil : s.games.filter (fun g => g.date == today) = [] :=
      findGameAux_none_filter s.games today 2 hgt
    cases hfa : findAgreedMode (groupVotes (upsertVote s.mode_votes today tg mode) today) with
    | some m =>
      have : (record_mode_vote s today tg mode tsec).2 =
          { s with
              mode_votes := upsertVote s.mode_votes today tg mode
              games := s.games ++ [newGameRec today m tsec] } := by
        simp [record_mode_vote, hgt, hfa]
      rw [this]
      simp [gameCount, List.filter_append, hnil, newGameRec]
    | none =>
      have : (record_mode_vote s today tg mode tsec).2 =
          { s with mode_votes := upsertVote s.mode_votes today tg mode } := by
        simp [record_mode_vote, hgt, hfa]
      rw [this]
      simpa [gameCount] using h

/-- Iterating `record_mode_vote` keeps the games-per-date count at most one. -/
theorem runVoteSeq_gameCount (today : String) (calls : List (String × String × String)) :
    ∀ s : St, gameCount s today ≤ 1 →
      gameCount (runVoteSeq s today calls) today ≤ 1 := by
  induction calls with
  | nil => intro s h; exact h
  | cons c rest ih =>
    intro s h
    exact ih _ (record_vote_gameCount s today c.1 c.2.1 c.2.2 h)

/-- Every voter list produced by `addVote` stays duplicate-free, and all
its entries keep satisfying the invariant `Q` of their mode. -/
theorem addVote_preserves (Q : String → String → Prop) (m u : String) (hQ : Q m u) :
    ∀ acc, (∀ p ∈ acc, p.2.Nodup ∧ ∀ v ∈ p.2, Q p.1 v) →
      ∀ p ∈ addVote acc m u, p.2.Nodup ∧ ∀ v ∈ p.2, Q p.1 v := by
  intro acc
  induction acc with
  | nil =>
    intro _ p hp
    simp only [addVote, List.mem_singleton] at hp
    subst hp
    refine ⟨by simp, ?_⟩
    intro v hv
    simp only [List.mem_singleton] at hv
    subst hv
    exact hQ
  | cons q rest ih =>
    intro hacc p hp
    rw [addVote] at hp
    by_cases hq : (q.1 == m) = true
    · rw [if_pos hq] at hp
      rcases List.mem_cons.mp hp with h1 | h1
      · subst h1
        have hqm : q.1 = m := eq_of_beq hq
        obtain ⟨hnd, hQ2⟩ := hacc q (by simp)
        by_cases hcont : u ∈ q.2
        · refine ⟨by simpa [hcont] using hnd, ?_⟩
          intro v hv
          have hv' : v ∈ q.2 := by simpa [hcont] using hv
          exact hQ2 v hv'
        · refine ⟨?_, ?_⟩
          · have hap : (q.2 ++ [u]).Nodup := by
              rw [List.nodup_append]
              refine ⟨hnd, by simp, ?_⟩
              intro x hx hx'
              simp only [List.mem_singleton] at hx'
              exact hcont (hx' ▸ hx)
            simpa [hcont] using hap
          · intro v hv
            have hv' : v ∈ q.2 ++ [u] := by simpa [hcont] using hv
            rcases List.mem_append.mp hv' with h2 | h2
            · exact hQ2 v h2
            · simp only [List.mem_singleton] at h2
              subst h2
              exact hqm ▸ hQ
      · exact hacc p (List.mem_cons_of_mem _ h1)
    · rw [if_neg hq] at hp
      rcases List.mem_cons.mp hp with h1 | h1
      · subst h1; exact hacc p (by simp)
      · exact ih (fun p' hp' => hacc p' (List.mem_cons_of_mem _ hp')) p h1

/-- Invariant transport through the vote-grouping fold. -/
theorem groupVotes_aux (d : String) (Q : String → String → Prop) :
    ∀ (rs : List VoteRec) (acc : List (String × List String)),
      (∀ p ∈ acc, p.2.Nodup ∧ ∀ v ∈ p.2, Q p.1 v) →
      (∀ r ∈ rs, r.date = d → Q r.mode r.user_id) →
      ∀ p ∈ rs.foldl
          (fun acc r => if r.date == d then addVote acc r.mode r.user_id else acc) acc,
        p.2.Nodup ∧ ∀ v ∈ p.2, Q p.1 v := by
  intro rs
  induction rs with
  | nil => intro acc hacc _ p hp; exact hacc p hp
  | cons r rest ih =>
    intro acc hacc hrs
    simp only [List.foldl_cons]
    by_cases hd : (r.date == d) = true
    · rw [if_pos hd]
      exact ih (addVote acc r.mode r.user_id)
        (addVote_preserves Q r.mode r.user_id (hrs r (by simp) (eq_of_beq hd)) acc hacc)
        (fun r' hr' hd' => hrs r' (List.mem_cons_of_mem _ hr') hd')
    · rw [if_neg hd]
      exact ih acc hacc (fun r' hr' hd' => hrs r' (List.mem_cons_of_mem _ hr') hd')

/-- Every group built by `groupVotes` has duplicate-free voters, each of
whom cast a vote row for that date and mode. -/
theorem groupVotes_sound (rs : List VoteRec) (d : String) :
    ∀ p ∈ groupVotes rs d, p.2.Nodup ∧
      ∀ u ∈ p.2, ∃ r, r ∈ rs ∧ r.date = d ∧ r.mode = p.1 ∧ r.user_id = u := by
  intro p hp
  exact groupVotes_aux d
    (fun m u => ∃ r, r ∈ rs ∧ r.date = d ∧ r.mode = m ∧ r.user_id = u) rs []
    (by intro p' hp'; simp at hp')
    (fun r hr hd => ⟨r, hr, hd, rfl, rfl⟩) p hp

/-- A successful agreed-mode scan exhibits a group of at least two voters. -/
theorem findAgreedMode_some (groups : List (String × List String)) (m : String)
    (h : findAgreedMode groups = some m) :
    ∃ us, (m, us) ∈ groups ∧ 2 ≤ us.length := by
  induction groups with
  | nil => simp [findAgreedMode] at h
  | cons q rest ih =>
    rw [findAgreedMode] at h
    by_cases hl : q.2.length ≥ 2
    · rw [if_pos hl] at h
      refine ⟨q.2, ?_, hl⟩
      have hm : q.1 = m := by injection h
      rw [← hm]
      simp
    · rw [if_neg hl] at h
      obtain ⟨us, hmem, hlen⟩ := ih h
      exact ⟨us, List.mem_cons_of_mem _ hmem, hlen⟩

/-- When no group has two voters the agreed-mode scan fails. -/
theorem findAgreedMode_none_of (groups : List (String × List String))
    (h : ∀ p ∈ groups, p.2.length < 2) : findAgreedMode groups = none := by
  induction groups with
  | nil => rfl
  | cons q rest ih =>
    rw [findAgreedMode, if_neg (Nat.not_le.mpr (h q (by simp)))]
    exact ih (fun p hp => h p (List.mem_cons_of_mem _ hp))

/-- The vote upsert preserves "every vote row for this date belongs to the
caller": the overwritten row keeps its user id and the appended row is the
caller's own. -/
theorem upsertVote_user (l : List VoteRec) (d u m : String)
    (hl : ∀ r ∈ l, r.date = d → r.user_id = u) :
    ∀ r ∈ upsertVote l d u m, r.date = d → r.user_id = u := by
  induction l with
  | nil =>
    intro r hr _
    simp only [upsertVote, List.mem_singleton] at hr
    subst hr
    rfl
  | cons q rest ih =>
    intro r hr hd
    rw [upsertVote] at hr
    by_cases hq : (q.date == d && q.user_id == u) = true
    · rw [if_pos hq] at hr
      rcases List.mem_cons.mp hr with h1 | h1
      · subst h1
        exact eq_of_beq (Bool.and_eq_true_iff.mp hq).2
      · exact hl r (List.mem_cons_of_mem _ h1) hd
    · rw [if_neg hq] at hr
      rcases List.mem_cons.mp hr with h1 | h1
      · subst h1; exact hl r (by simp) hd
      · exact ih (fun r' hr' hd' => hl r' (List.mem_cons_of_mem _ hr') hd') r h1 hd

/-- A duplicate-free list whose entries are all equal has at most one. -/
theorem length_le_one_of_const (us : List String) (t : String)
    (hn : us.Nodup) (hall : ∀ v ∈ us, v = t) : us.length ≤ 1 := by
  cases us with
  | nil => simp
  | cons a rest =>
    cases rest with
    | nil => simp
    | cons b rest2 =>
      exfalso
      have ha := hall a (by simp)
      have hb := hall b (by simp)
      rw [List.nodup_cons] at hn
      exact hn.1 (by rw [ha, ← hb]; simp)

/-! Theorems settling the claims. -/

/-- C1: starting from a store with at most one game row for the date, any
sequence of `record_mode_vote` calls keeps at most one game row for that
date; moreover once a game exists for the date, every further vote returns
`already` with that game's id and leaves the games table unchanged. -/
theorem at_most_one_game_per_date (s : St) (today : String)
    (calls : List (String × String × String))
    (h : gameCount s today ≤ 1) :
    gameCount (runVoteSeq s today calls) today ≤ 1 ∧
    (∀ gi g tg mode tsec, get_today_game s today = some (gi, g) →
      (record_mode_vote s today tg mode tsec).1 = ("already", some g.game_id) ∧
      ((record_mode_vote s today tg mode tsec).2).games = s.games) := by
  refine ⟨runVoteSeq_gameCount today calls s h, ?_⟩
  intro gi g tg mode tsec hg
  have hg1 : get_today_game { s with mode_votes := upsertVote s.mode_votes today tg mode } today
      = some (gi, g) := hg
  constructor
  · simp [record_mode_vote, hg1]
  · simp [record_mode_vote, hg1]

/-- Witness for C1: a finished-game store receives two further votes; the
date still has a single game row, and a direct vote answers `already` with
the existing id. -/
theorem at_most_one_game_per_date_witness :
    gameCount (runVoteSeq stAutoDone "2024-01-01"
        [("1", "auto", "99"), ("2", "manual", "100")]) "2024-01-01" ≤ 1 ∧
    (record_mode_vote stAutoDone "2024-01-01" "1" "manual" "99").1 =
      ("already", some "g1") := by
  have h := at_most_one_game_per_date stAutoDone "2024-01-01"
    [("1", "auto", "99"), ("2", "manual", "100")] (by decide)
  exact ⟨h.1, (h.2 2 ⟨"g1", "2024-01-01", "auto", "Руся", 1, "TRUE"⟩ "1" "manual" "99"
    (by decide)).1⟩

/-- C9: with no game yet for the date, a vote creates a game only when,
after the caller's vote is upserted, some mode carries votes of two
distinct player ids; in particular while every vote row of the date is the
caller's own, the call answers `waiting`, leaves the games table unchanged,
and keeps all of the date's vote rows the caller's own. -/
theorem vote_game_creation_requires_two (s : St) (today tg mode tsec : String)
    (hnog : get_today_game s today = none) :
    ((record_mode_vote s today tg mode tsec).1.1 = "started" →
      ∃ m u1 u2, u1 ≠ u2 ∧
        (∃ r, r ∈ upsertVote s.mode_votes today tg mode ∧
           r.date = today ∧ r.mode = m ∧ r.user_id = u1) ∧
        (∃ r, r ∈ upsertVote s.mode_votes today tg mode ∧
           r.date = today ∧ r.mode = m ∧ r.user_id = u2)) ∧
    ((∀ r ∈ s.mode_votes, r.date = today → r.user_id = tg) →
      (record_mode_vote s today tg mode tsec).1 = ("waiting", none) ∧
      ((record_mode_vote s today tg mode tsec).2).games = s.games ∧
      (∀ r ∈ (record_mode_vote s today tg mode tsec).2.mode_votes,
         r.date = today → r.user_id = tg)) := by
  have hnog1 : get_today_game
      { s with mode_votes := upsertVote s.mode_votes today tg mode } today = none := hnog
  constructor
  · intro hst
    cases hfa : findAgreedMode (groupVotes (upsertVote s.mode_votes today tg mode) today) with
    | none =>
      exfalso
      have hw : (record_mode_vote s today tg mode tsec).1.1 = "waiting" := by
        simp [record_mode_vote, hnog1, hfa]
      rw [hw] at hst
      exact absurd hst (by decide)
    | some m =>
      obtain ⟨us, hmem, hlen⟩ := findAgreedMode_some _ _ hfa
      obtain ⟨hnd, hQ⟩ := groupVotes_sound (upsertVote s.mode_votes today tg mode) today
        (m, us) hmem
      cases us with
      | nil => simp at hlen
      | cons u1 t =>
        cases t with
        | nil => simp at hlen
        | cons u2 t2 =>
          refine ⟨m, u1, u2, ?_, hQ u1 (by simp), hQ u2 (by simp)⟩
          rw [List.nodup_cons] at hnd
          intro he
          exact hnd.1 (he ▸ (by simp : u2 ∈ u2 :: t2))
  · intro hall
    have hall1 := upsertVote_user s.mode_votes today tg mode hall
    have hfa : findAgreedMode (groupVotes (upsertVote s.mode_votes today tg mode) today)
        = none := by
      apply findAgreedMode_none_of
      intro p hp
      obtain ⟨hnd, hQ⟩ := groupVotes_sound _ _ p hp
      have hconst : ∀ v ∈ p.2, v = tg := by
        intro v hv
        obtain ⟨r, hr, hrd, _, hru⟩ := hQ v hv
        exact hru ▸ hall1 r hr hrd
      have := length_le_one_of_const p.2 tg hnd hconst
      omega
    refine ⟨by simp [record_mode_vote, hnog1, hfa], by simp [record_mode_vote, hnog1, hfa], ?_⟩
    intro r hr
    have hmv : (record_mode_vote s today tg mode tsec).2.mode_votes =
        upsertVote s.mode_votes today tg mode := by
      simp [record_mode_vote, hnog1, hfa]
    rw [hmv] at hr
    exact hall1 r hr

/-- Witness for C9: player 1 already voted manual, then votes auto; still
waiting, and no game row appears. -/
theorem vote_game_creation_requires_two_witness :
    (record_mode_vote stOneVote "2024-01-01" "1" "auto" "99").1 = ("waiting", none) ∧
    ((record_mode_vote stOneVote "2024-01-01" "1" "auto" "99").2).games = stOneVote.games ∧
    (∀ r ∈ (record_mode_vote stOneVote "2024-01-01" "1" "auto" "99").2.mode_votes,
       r.date = "2024-01-01" → r.user_id = "1") :=
  (vote_game_creation_requires_two stOneVote "2024-01-01" "1" "auto" "99" rfl).2 (by decide)

/-- C2: on the valid symbol set, `determine_winner` returns tie exactly on
equal symbols, returns player1 exactly when the first symbol beats the
second, player2 exactly when the second beats the first, and is
anti-symmetric: a player1 outcome swaps to player2 when the arguments are
swapped. -/
theorem determine_winner_spec (a b : String)
    (ha : a ∈ validMoves) (hb : b ∈ validMoves) :
    (determine_winner a b = some "tie" ↔ a = b) ∧
    (determine_winner a b = some "player1" ↔ a ≠ b ∧ beats a = some b) ∧
    (determine_winner a b = some "player2" ↔ a ≠ b ∧ beats b = some a) ∧
    (determine_winner a b = some "player1" → determine_winner b a = some "player2") := by
  fin_cases ha <;> fin_cases hb <;> decide

/-- Witness for C2 at the concrete pair (rock, scissors). -/
theorem determine_winner_spec_witness :
    (determine_winner "rock" "scissors" = some "tie" ↔ "rock" = "scissors") ∧
    (determine_winner "rock" "scissors" = some "player1" ↔
      "rock" ≠ "scissors" ∧ beats "rock" = some "scissors") ∧
    (determine_winner "rock" "scissors" = some "player2" ↔
      "rock" ≠ "scissors" ∧ beats "scissors" = some "rock") ∧
    (determine_winner "rock" "scissors" = some "player1" →
      determine_winner "scissors" "rock" = some "player2") :=
  determine_winner_spec "rock" "scissors" (by decide) (by decide)

/-- C7 counterexample: with an invalid second symbol the function happily
returns an outcome, and two equal invalid symbols yield a tie — no error
is raised in either case. -/
theorem determine_winner_invalid_counterexample :
    "lizard" ∉ validMoves ∧
    determine_winner "rock" "lizard" = some "player2" ∧
    determine_winner "lizard" "lizard" = some "tie" := by
  decide

/-- C7 amended: `determine_winner` fails (Python `KeyError`, modelled as
`none`) exactly when the first symbol is outside the valid set and the two
symbols differ; in every other case — including an invalid second symbol —
it returns an outcome. -/
theorem determine_winner_error_iff (a b : String) :
    determine_winner a b = none ↔ a ∉ validMoves ∧ a ≠ b := by
  by_cases hab : a = b
  · subst hab; simp [determine_winner]
  · by_cases hr : a = "rock"
    · subst hr; simp [determine_winner, beats, validMoves, hab]
    · by_cases hs : a = "scissors"
      · subst hs; simp [determine_winner, beats, validMoves, hab]
      · by_cases hp : a = "paper"
        · subst hp; simp [determine_winner, beats, validMoves, hab]
        · simp [determine_winner, beats, validMoves, hab, hr, hs, hp]

/-- Witness for C7's amended statement at a concrete invalid first symbol. -/
theorem determine_winner_error_iff_witness :
    determine_winner "lizard" "rock" = none :=
  (determine_winner_error_iff "lizard" "rock").mpr ⟨by decide, by decide⟩

/-- C6: after any `save_auto_choice` call — whatever pending rows the prior
state (and so any earlier call sequence) left behind — exactly one
pending-choice row for `(game_id, player_id)` is live, and it carries the
move of that last call. -/
theorem save_auto_choice_idempotent (s : St) (gid tg mv ts : String) :
    (save_auto_choice s gid tg mv ts).moves.filter (isAutoChoiceFor gid tg) =
      [⟨gid, 0, tg, mv, "", "", "auto_choice", ts⟩] :=
  filter_save_auto_choice s gid tg mv ts

/-- C5 counterexample: a finished manual game makes `process_daily_auto_game`
return `mode_not_auto`, not `already_finished` — the mode test precedes the
finished test (main.py lines 317-320). The store is still left unchanged. -/
theorem settle_finished_counterexample :
    get_today_game stManualDone "2024-01-01" =
      some (2, ⟨"g2", "2024-01-01", "manual", "Руся", 1, "TRUE"⟩) ∧
    finishedIsTrue "TRUE" = true ∧
    process_daily_auto_game stManualDone "2024-01-01" "t3" =
      some (⟨"mode_not_auto", none, none⟩, stManualDone) ∧
    "mode_not_auto" ≠ "already_finished" := by
  decide

/-- C5 amended: when the day's Game is finished, `process_daily_auto_game`
performs no mutation at all and returns `already_finished` provided the
game's mode is "auto" (it returns `mode_not_auto` otherwise, since the mode
test comes first); in particular a second call right after a `finished`
result hits the auto branch and returns `already_finished`. -/
theorem settle_finished_no_mutation (s : St) (today ts : String) (gi : Nat) (g : GameRec)
    (hg : get_today_game s today = some (gi, g))
    (hf : finishedIsTrue g.finished = true) :
    process_daily_auto_game s today ts =
      some (⟨if g.mode == "auto" then "already_finished" else "mode_not_auto",
             none, none⟩, s) := by
  unfold process_daily_auto_game
  rw [hg]
  by_cases hm : g.mode = "auto"
  · simp [hm, hf]
  · simp [hm, hf]

/-- Witness for C5's amended statement: a second settlement call on a
finished auto game mutates nothing. -/
theorem settle_finished_no_mutation_witness :
    process_daily_auto_game stAutoDone "2024-01-01" "t3" =
      some (⟨if ("auto" : String) == "auto" then "already_finished" else "mode_not_auto",
             none, none⟩, stAutoDone) :=
  settle_finished_no_mutation stAutoDone "2024-01-01" "t3" 2
    ⟨"g1", "2024-01-01", "auto", "Руся", 1, "TRUE"⟩ (by decide) (by decide)

/-- C8 counterexample: the `auto_<move>` callback only checks that a game
exists and has mode "auto" (main.py lines 666-668); it never looks at
`finished`, so a choice submitted against a finished auto game is happily
persisted as a pending-choice row. -/
theorem submit_choice_finished_counterexample :
    get_today_game stAutoDone "2024-01-01" =
      some (2, ⟨"g1", "2024-01-01", "auto", "Руся", 1, "TRUE"⟩) ∧
    finishedIsTrue "TRUE" = true ∧
    stAutoDone.moves.filter (isAutoChoiceFor "g1" "1") = [] ∧
    (auto_move_callback stAutoDone "2024-01-01" "1" "rock" "t9").moves.filter
        (isAutoChoiceFor "g1" "1") =
      [⟨"g1", 0, "1", "rock", "", "", "auto_choice", "t9"⟩] := by
  decide

/-- C8 amended: the choice-submission callback is guarded only by game
existence and mode: with no game for today, or a game whose mode is not
"auto", the store is untouched; whenever the day's game has mode "auto" —
finished or not, since the finished flag is never consulted on this path —
the call replaces the player's pending choice with the new move. -/
theorem submit_choice_guard (s : St) (today tg mv ts : String) :
    (get_today_game s today = none → auto_move_callback s today tg mv ts = s) ∧
    (∀ gi g, get_today_game s today = some (gi, g) →
      (g.mode ≠ "auto" → auto_move_callback s today tg mv ts = s) ∧
      (g.mode = "auto" →
        auto_move_callback s today tg mv ts = save_auto_choice s g.game_id tg mv ts ∧
        (auto_move_callback s today tg mv ts).moves.filter (isAutoChoiceFor g.game_id tg) =
          [⟨g.game_id, 0, tg, mv, "", "", "auto_choice", ts⟩])) := by
  constructor
  · intro h
    unfold auto_move_callback
    rw [h]
  · intro gi g h
    constructor
    · intro hm
      unfold auto_move_callback
      rw [h]
      simp [hm]
    · intro hm
      have heq : auto_move_callback s today tg mv ts = save_auto_choice s g.game_id tg mv ts := by
        unfold auto_move_callback
        rw [h]
        simp [hm]
      exact ⟨heq, heq ▸ filter_save_auto_choice s g.game_id tg mv ts⟩

/-- Witness for C8's amended statement: a pending choice submitted against
the finished auto game of `stAutoDone` is persisted. -/
theorem submit_choice_guard_witness :
    auto_move_callback stAutoDone "2024-01-01" "1" "rock" "t9" =
      save_auto_choice stAutoDone "g1" "1" "rock" "t9" :=
  (((submit_choice_guard stAutoDone "2024-01-01" "1" "rock" "t9").2 2
      ⟨"g1", "2024-01-01", "auto", "Руся", 1, "TRUE"⟩ (by decide)).2 rfl).1

/-- C3: on a day whose Game is an unfinished auto game with exactly two
pending choices whose moves give a decisive outcome, the settlement engine
resolves the winner's display name, rewrites the whole Game row (winner,
moves_count, finished = "TRUE") in one update, appends the settled Move
row, and returns `finished` with that winner name and the round number. -/
theorem settle_decisive (s : St) (today ts : String) (gi : Nat) (g : GameRec)
    (i1 i2 : String) (c1 c2 : MoveRec) (w : String)
    (hg : get_today_game s today = some (gi, g))
    (hm : g.mode = "auto")
    (hf : finishedIsTrue g.finished = false)
    (hc : collectChoices s.moves g.game_id = [(i1, c1), (i2, c2)])
    (hw : determine_winner c1.player1_move c2.player1_move = some w)
    (hdec : w = "player1" ∨ w = "player2") :
    process_daily_auto_game s today ts =
      some
        (⟨"finished", some (resolve_winner_name s.users c1.player1_id w),
          some (settledCount s.moves g.game_id + 1)⟩,
         { s with
             moves := s.moves ++
               [⟨g.game_id, settledCount s.moves g.game_id + 1, c1.player1_id,
                 c1.player1_move,
                 (if c2.player2_id == "" then c2.player1_id else c2.player2_id),
                 c2.player1_move, w, ts⟩]
             games := updateRow s.games gi
               (fun _ => ⟨g.game_id, today, "auto",
                 resolve_winner_name s.users c1.player1_id w,
                 settledCount s.moves g.game_id + 1, "TRUE"⟩) }) := by
  have hw' : (w == "tie") = false := by
    rcases hdec with h | h <;> subst h <;> decide
  unfold process_daily_auto_game
  rw [hg]
  simp [hm, hf, hc, hw, hw']

/-- Witness for C3: Руся plays rock against Никита's scissors; settlement
finishes round 1 with winner Руся and flips the Game row to finished. -/
theorem settle_decisive_witness :
    process_daily_auto_game stAutoReady "2024-01-01" "t3" =
      some (⟨"finished", some "Руся", some 1⟩,
        { stAutoReady with
            moves := stAutoReady.moves ++
              [⟨"g1", 1, "1", "rock", "2", "scissors", "player1", "t3"⟩]
            games := [⟨"g1", "2024-01-01", "auto", "Руся", 1, "TRUE"⟩] }) := by
  rw [settle_decisive stAutoReady "2024-01-01" "t3" 2
      ⟨"g1", "2024-01-01", "auto", "", 0, "FALSE"⟩ "1" "2"
      ⟨"g1", 0, "1", "rock", "", "", "auto_choice", "t1"⟩
      ⟨"g1", 0, "2", "scissors", "", "", "auto_choice", "t2"⟩
      "player1" (by decide) rfl (by decide) (by decide) (by decide) (Or.inl rfl)]
  decide

/-- C4: on a day whose Game is an unfinished auto game with exactly two
pending choices whose moves tie, the settlement engine appends a settled
Move row numbered `settled rounds + 1` with outcome "tie", sets the Game
row's winner to "draw_pending" and moves_count to that round number while
leaving the finished cell untouched, and returns `tie` with the round
number. -/
theorem settle_tie (s : St) (today ts : String) (gi : Nat) (g : GameRec)
    (i1 i2 : String) (c1 c2 : MoveRec)
    (hg : get_today_game s today = some (gi, g))
    (hm : g.mode = "auto")
    (hf : finishedIsTrue g.finished = false)
    (hc : collectChoices s.moves g.game_id = [(i1, c1), (i2, c2)])
    (hw : determine_winner c1.player1_move c2.player1_move = some "tie") :
    process_daily_auto_game s today ts =
      some
        (⟨"tie", none, some (settledCount s.moves g.game_id + 1)⟩,
         { s with
             moves := s.moves ++
               [⟨g.game_id, settledCount s.moves g.game_id + 1, c1.player1_id,
                 c1.player1_move,
                 (if c2.player2_id == "" then c2.player1_id else c2.player2_id),
                 c2.player1_move, "tie", ts⟩]
             games := updateRow s.games gi
               (fun gr => { gr with
                 moves_count := settledCount s.moves g.game_id + 1
                 winner := "draw_pending" }) }) := by
  unfold process_daily_auto_game
  rw [hg]
  simp [hm, hf, hc, hw]

/-- Witness for C4: both players play rock; settlement records a tied round
1 and marks the game draw_pending but not finished. -/
theorem settle_tie_witness :
    process_daily_auto_game stAutoTie "2024-01-01" "t3" =
      some (⟨"tie", none, some 1⟩,
        { stAutoTie with
            moves := stAutoTie.moves ++
              [⟨"g1", 1, "1", "rock", "2", "rock", "tie", "t3"⟩]
            games := [⟨"g1", "2024-01-01", "auto", "draw_pending", 1, "FALSE"⟩] }) := by
  rw [settle_tie stAutoTie "2024-01-01" "t3" 2
      ⟨"g1", "2024-01-01", "auto", "", 0, "FALSE"⟩ "1" "2"
      ⟨"g1", 0, "1", "rock", "", "", "auto_choice", "t1"⟩
      ⟨"g1", 0, "2", "rock", "", "", "auto_choice", "t2"⟩
      (by decide) rfl (by decide) (by decide) (by decide)]
  decide

/-- C10: `manual_process_if_both_moves` appends the settled-round Move row
before it looks today's Game up, so when both players are registered and
the round outcome computes but no Game exists for today, it reports the
"game not found" failure with the Move row already persisted. -/
theorem manual_settle_mutates_on_missing_game (s : St) (ms : MState) (today ts w : String)
    (h1 : truthyId (get_player_ids s.users).1 = true)
    (h2 : truthyId (get_player_ids s.users).2 = true)
    (hw : determine_winner ms.p1_move ms.p2_move = some w)
    (hg : get_today_game s today = none) :
    manual_process_if_both_moves s ms today ts =
      some (⟨false, "Игра не найдена."⟩,
        { s with moves := s.moves ++
            [⟨ms.game_id, ms.move_no, optStr (get_player_ids s.users).1, ms.p1_move,
              optStr (get_player_ids s.users).2, ms.p2_move, w, ts⟩] },
        ms) := by
  unfold manual_process_if_both_moves
  rw [hw]
  simp only [h1, h2, Bool.not_true, Bool.or_self, Bool.false_eq_true, if_false]
  rw [get_today_game_set_moves, hg]

/-- Witness for C10: Руся plays rock, Никита scissors, the games table is
empty; the call fails with "game not found" yet the settled row is stored. -/
theorem manual_settle_mutates_witness :
    manual_process_if_both_moves
      { users := twoUsers, mode_votes := [], games := [], moves := [] }
      ⟨"g1", 1, "rock", "scissors"⟩ "2024-01-01" "t5" =
      some (⟨false, "Игра не найдена."⟩,
        { users := twoUsers, mode_votes := [], games := [],
          moves := [⟨"g1", 1, "1", "rock", "2", "scissors", "player1", "t5"⟩] },
        ⟨"g1", 1, "rock", "scissors"⟩) := by
  rw [manual_settle_mutates_on_missing_game
      { users := twoUsers, mode_votes := [], games := [], moves := [] }
      ⟨"g1", 1, "rock", "scissors"⟩ "2024-01-01" "t5" "player1"
      (by decide) (by decide) (by decide) rfl]
  decide

end RpsBot
